import Mathlib

/-!
Verification of the capture-session core of the Screen-Recorder-Pro repository.

The definitions below are a shallow embedding of the recording page
(`src/src/pages/RecordPage.tsx`, first revision — the one whose line numbers the
specification's claims cite).  React state hooks become fields of a `Sess`
record, `useRef` cells become further fields, and each handler
(`cleanupResources`, `checkDeviceAvailability`, `requestMediaAccess`,
`startRecording`, `stopRecording`, `resetRecording`, the `MediaRecorder`
callbacks and the mode-selector buttons) becomes a state-transformation
function.  Platform inputs (device enumeration, `getUserMedia` results,
`MediaRecorder.isTypeSupported`) are parameters of the transitions.
Acquisition/start additionally emit a trace of observable actions so that
ordering properties (teardown before error surfacing, `getUserMedia` never
invoked) can be stated.
-/

namespace ScreenRecorder

/-- The two capture modes implemented by the page (`recordingMode` state). -/
inductive RecordingMode
  | audio
  | video
deriving DecidableEq, Repr

/-- Ready state of a media track (`MediaStreamTrack.readyState`). -/
inductive TrackState
  | live
  | ended
deriving DecidableEq, Repr

/-- Published permission status (`permissionStatus` state hook). -/
inductive PermissionStatus
  | unknown
  | granted
  | denied
deriving DecidableEq, Repr

/-- State of a `MediaRecorder` handle (the page only ever observes
`recording` vs `inactive`). -/
inductive RecState
  | recording
  | inactive
deriving DecidableEq, Repr

/-- Kind of an enumerated capture device (`MediaDeviceInfo.kind`). -/
inductive DeviceKind
  | audioinput
  | videoinput
  | otherKind
deriving DecidableEq, Repr

/-- Name of a platform error, as matched by the `switch (error.name)`
classifier in `requestMediaAccess`; `generic` stands for a plain `Error`
(such as the ones thrown by `checkDeviceAvailability`). -/
inductive ErrName
  | notAllowed
  | notFound
  | notReadable
  | overconstrained
  | security
  | abort
  | generic
deriving DecidableEq, Repr

/-- A JavaScript error value: its `name` (discriminating the classifier
branch) and its `message`. -/
structure JsError where
  name : ErrName
  message : String
deriving DecidableEq, Repr

/-- The spec's error taxonomy (section 7), one constructor per classifier
branch of `requestMediaAccess`'s `switch`: `NotAllowedError` is the
PermissionDenied branch, `NotFoundError` the DeviceNotFound branch,
`NotReadableError` the DeviceBusy branch, `OverconstrainedError` the
ConstraintsUnsatisfiable branch, `SecurityError` the InsecureContext branch,
`AbortError` the UserAborted branch, and the `default` branch is the
catch-all Unknown (it passes the original message through). -/
inductive ErrorKind
  | permissionDenied
  | deviceNotFound
  | deviceBusy
  | constraintsUnsatisfiable
  | insecureContext
  | userAborted
  | unknown
deriving DecidableEq, Repr

/-- Which taxonomy branch of the classifier `switch` a caught error reaches,
keyed on `error.name` exactly as the source's `switch` is. -/
def classifyKind (e : JsError) : ErrorKind :=
  match e.name with
  | ErrName.notAllowed => ErrorKind.permissionDenied
  | ErrName.notFound => ErrorKind.deviceNotFound
  | ErrName.notReadable => ErrorKind.deviceBusy
  | ErrName.overconstrained => ErrorKind.constraintsUnsatisfiable
  | ErrName.security => ErrorKind.insecureContext
  | ErrName.abort => ErrorKind.userAborted
  | ErrName.generic => ErrorKind.unknown

/-- A handle over a `MediaRecorder` together with the `chunks` array captured
by its `ondataavailable`/`onstop` closures.  `stopPending` records that
`stop()` has been called but the asynchronous `onstop` callback has not yet
fired. -/
structure RecorderHandle where
  recState : RecState
  chunks : List (List Nat)
  stopPending : Bool
  mimeType : String
deriving DecidableEq, Repr

/-- A finalized recording blob: its bytes and its MIME type. -/
structure MediaBlob where
  data : List Nat
  mimeType : String
deriving DecidableEq, Repr

/-- The whole state of the recording page: React state hooks
(`isRecording`, `recordedBlob`, `recordingTime`, `recordingMode`,
`isVideoEnabled`, `permissionStatus`, `isInitializing`, `error`) and refs
(`mediaRecorderRef`, `streamRef`, `intervalRef` as `intervalRunning`,
`videoRef.srcObject` as `videoSrcBound`).  `stream` holds the ready states of
the tracks of the currently held `MediaStream`; `graveyard` is a ghost list
collecting all tracks released so far (each is `ended` once stopped), so that
statements about previously acquired tracks remain expressible. -/
structure Sess where
  isRecording : Bool
  recordedBlob : Option MediaBlob
  recordingTime : Nat
  recordingMode : RecordingMode
  isVideoEnabled : Bool
  permissionStatus : PermissionStatus
  isInitializing : Bool
  error : Option String
  mediaRecorder : Option RecorderHandle
  stream : Option (List TrackState)
  graveyard : List TrackState
  intervalRunning : Bool
  videoSrcBound : Bool
deriving DecidableEq, Repr

/-- Observable actions emitted along acquisition/start, used to state
ordering properties of the failure paths. -/
inductive Action
  | checkDevices
  | releaseResources
  | callGetUserMedia
  | stopAcquiredTracks
  | setPermission (p : PermissionStatus)
  | surfaceError (msg : String)
  | storeStream
  | bindPreview
deriving DecidableEq, Repr

/-- Whether an action is the surfacing of an error message (`setError`). -/
def Action.isSurface : Action → Bool
  | Action.surfaceError _ => true
  | _ => false

/-- A teardown (`cleanupResources`) occurs strictly before the first error
surfacing in the trace. -/
def releaseBeforeError (tr : List Action) : Bool :=
  (tr.takeWhile (fun a => ! a.isSurface)).contains Action.releaseResources

/-- Number of live tracks in a track list (`filter(readyState === "live").length`). -/
def liveCount (ts : List TrackState) : Nat :=
  ts.countP (· == TrackState.live)

/-- The session currently holds a stream with at least one live track. -/
def holdsLiveStream (s : Sess) : Bool :=
  match s.stream with
  | some ts => liveCount ts != 0
  | none => false

/-- The held `MediaRecorder`, if any, is actively recording. -/
def recorderActive (s : Sess) : Bool :=
  match s.mediaRecorder with
  | some r => r.recState == RecState.recording
  | none => false

/-- A recorder `stop()` has been issued whose `onstop` has not yet fired
(the controller's transient `stopping` phase). -/
def stopPendingB (s : Sess) : Bool :=
  match s.mediaRecorder with
  | some r => r.stopPending
  | none => false

/-- Initial page state: nothing held, mode `audio`, permission unknown. -/
def initialState : Sess :=
  { isRecording := false
    recordedBlob := none
    recordingTime := 0
    recordingMode := RecordingMode.audio
    isVideoEnabled := false
    permissionStatus := PermissionStatus.unknown
    isInitializing := false
    error := none
    mediaRecorder := none
    stream := none
    graveyard := []
    intervalRunning := false
    videoSrcBound := false }

/-- Error message thrown by `checkDeviceAvailability` when no audio input
device is enumerated. -/
def micMissingMsg : String := "Aucun microphone détecté sur votre système"

/-- Error message thrown by `checkDeviceAvailability` when video mode is on
and no video input device is enumerated. -/
def camMissingMsg : String := "Aucune caméra détectée sur votre système"

/-- Error message thrown when `getUserMedia` returns a stream with no tracks. -/
def invalidStreamMsg : String := "Flux média invalide reçu"

/-- Error message thrown when the acquired stream has zero live tracks. -/
def noLiveTrackMsg : String := "Aucune piste média active obtenue"

/-- Error message thrown by `startRecording` when the stream has no active track. -/
def noActiveTrackMsg : String := "Aucune piste média active"

/-- Error message thrown when no candidate MIME type is supported. -/
def noFormatMsg : String := "Aucun format d\x27enregistrement supporté par votre navigateur"

/-- Error message surfaced by `onstop` when the chunk buffer is empty. -/
def noDataMsg : String := "Aucune donnée enregistrée"

/-- `cleanupResources` (lines 27-73): stop the recorder and drop its ref,
stop all live tracks of the held stream and drop the ref (the stopped tracks
move to the ghost `graveyard`, all `ended`), clear the tick interval, unbind
and reset the preview video element, clear `isVideoEnabled` and `error`. -/
def cleanupResources (s : Sess) : Sess :=
  { s with
    mediaRecorder := none
    stream := none
    graveyard := match s.stream with
      | some ts => s.graveyard ++ ts.map (fun _ => TrackState.ended)
      | none => s.graveyard
    intervalRunning := false
    videoSrcBound := false
    isVideoEnabled := false
    error := none }

/-- `checkDeviceAvailability` (lines 75-94): enumerate devices; throw when no
audio input exists, or when video mode is selected and no video input exists. -/
def checkDeviceAvailability (d : List DeviceKind) (m : RecordingMode) :
    Except JsError Unit :=
  if d.any (· == DeviceKind.audioinput) = false then
    Except.error { name := ErrName.generic, message := micMissingMsg }
  else if m == RecordingMode.video && d.any (· == DeviceKind.videoinput) = false then
    Except.error { name := ErrName.generic, message := camMissingMsg }
  else
    Except.ok ()

/-- The `switch (error.name)` classifier of `requestMediaAccess`
(lines 186-212), producing the user-facing message; the `default` branch
carries the original message (or a fixed fallback when it is empty). -/
def classifyMsg (m : RecordingMode) (e : JsError) : String :=
  match e.name with
  | ErrName.notAllowed =>
      "Accès refusé. Veuillez autoriser l\x27accès au microphone" ++
      (if m == RecordingMode.video then " et à la caméra" else "") ++
      " dans les paramètres de votre navigateur."
  | ErrName.notFound =>
      "Aucun dispositif " ++
      (if m == RecordingMode.video then "audio/vidéo" else "audio") ++
      " trouvé sur votre système."
  | ErrName.notReadable =>
      "Dispositif déjà utilisé par une autre application. Veuillez fermer les autres applications utilisant le microphone" ++
      (if m == RecordingMode.video then " ou la caméra" else "") ++
      " et réessayer."
  | ErrName.overconstrained =>
      "Les paramètres demandés ne sont pas supportés par votre dispositif."
  | ErrName.security =>
      "Accès sécurisé requis. Assurez-vous d\x27utiliser HTTPS."
  | ErrName.abort =>
      "Demande d\x27accès annulée. Veuillez réessayer."
  | ErrName.generic =>
      if e.message == "" then "Erreur inconnue lors de l\x27accès aux médias"
      else e.message

/-- The `catch` block of `requestMediaAccess` (lines 178-215): publish
permission `denied`, run `cleanupResources`, classify the error into a
message, surface it via `setError`, and rethrow it (the `finally` clears
`isInitializing`). -/
def rmaCatch (s : Sess) (e : JsError) :
    Sess × List Action × Except String (List TrackState) :=
  let msg := classifyMsg s.recordingMode e
  ({ cleanupResources { s with permissionStatus := PermissionStatus.denied } with
      error := some msg, isInitializing := false },
   [Action.setPermission PermissionStatus.denied, Action.releaseResources,
    Action.surfaceError msg],
   Except.error msg)

/-- `requestMediaAccess` (lines 96-219): set `isInitializing`, clear the
error, check device availability, clean prior resources, call `getUserMedia`
(its outcome is the parameter `gum`), validate the stream (nonempty, at least
one live track — a zero-live stream has all its tracks stopped and is
rejected), then store the stream, publish permission `granted` and, in video
mode, bind the live preview. -/
def requestMediaAccess (d : List DeviceKind)
    (gum : Except JsError (List TrackState)) (s : Sess) :
    Sess × List Action × Except String (List TrackState) :=
  let s0 : Sess := { s with isInitializing := true, error := none }
  match checkDeviceAvailability d s.recordingMode with
  | Except.error e =>
      let r := rmaCatch s0 e
      (r.1, Action.checkDevices :: r.2.1, r.2.2)
  | Except.ok _ =>
    let s1 := cleanupResources s0
    match gum with
    | Except.error e =>
        let r := rmaCatch s1 e
        (r.1,
         [Action.checkDevices, Action.releaseResources, Action.callGetUserMedia]
           ++ r.2.1,
         r.2.2)
    | Except.ok ts =>
      if ts.length = 0 then
        let r := rmaCatch s1 { name := ErrName.generic, message := invalidStreamMsg }
        (r.1,
         [Action.checkDevices, Action.releaseResources, Action.callGetUserMedia]
           ++ r.2.1,
         r.2.2)
      else if liveCount ts = 0 then
        let s2 : Sess :=
          { s1 with graveyard := s1.graveyard ++ ts.map (fun _ => TrackState.ended) }
        let r := rmaCatch s2 { name := ErrName.generic, message := noLiveTrackMsg }
        (r.1,
         [Action.checkDevices, Action.releaseResources, Action.callGetUserMedia,
          Action.stopAcquiredTracks] ++ r.2.1,
         r.2.2)
      else
        let s2 : Sess :=
          { s1 with stream := some ts, permissionStatus := PermissionStatus.granted }
        let s3 : Sess :=
          if s.recordingMode == RecordingMode.video then
            { s2 with videoSrcBound := true, isVideoEnabled := true }
          else s2
        ({ s3 with isInitializing := false },
         [Action.checkDevices, Action.releaseResources, Action.callGetUserMedia,
          Action.storeStream]
           ++ (if s.recordingMode == RecordingMode.video then [Action.bindPreview] else []),
         Except.ok ts)

/-- Which taxonomy branch the failure of an acquisition attempt reaches
(`none` when the acquisition succeeds): the device-availability check and the
internal stream-validation errors are plain `Error`s and therefore reach the
`default` (catch-all) branch; `getUserMedia` platform errors reach the branch
matching their name. -/
def acquisitionFailureKind (d : List DeviceKind)
    (gum : Except JsError (List TrackState)) (m : RecordingMode) :
    Option ErrorKind :=
  match checkDeviceAvailability d m with
  | Except.error e => some (classifyKind e)
  | Except.ok _ =>
    match gum with
    | Except.error e => some (classifyKind e)
    | Except.ok ts =>
      if ts.length = 0 then
        some (classifyKind { name := ErrName.generic, message := invalidStreamMsg })
      else if liveCount ts = 0 then
        some (classifyKind { name := ErrName.generic, message := noLiveTrackMsg })
      else none

/-- The ordered MIME-type preference lists probed by `startRecording`
(lines 260-262), per mode. -/
def possibleTypes : RecordingMode → List String
  | RecordingMode.video =>
      ["video/webm;codecs=vp9,opus", "video/webm;codecs=vp8,opus",
       "video/webm", "video/mp4"]
  | RecordingMode.audio =>
      ["audio/webm;codecs=opus", "audio/webm", "audio/mp4", "audio/ogg"]

/-- The probing loop of `startRecording` (lines 264-269): the first candidate
the platform (`sup` = `MediaRecorder.isTypeSupported`) reports as supported. -/
def selectMimeType (sup : String → Bool) (m : RecordingMode) : Option String :=
  (possibleTypes m).find? sup

/-- The `catch` block of `startRecording` (lines 337-350): surface the error
message, leave the recording flag down, run `cleanupResources` (which, note,
clears the just-surfaced error message again), and clear `isInitializing`. -/
def startCatch (s : Sess) (msg : String) : Sess :=
  { cleanupResources { s with error := some msg, isRecording := false } with
      isInitializing := false }

/-- Second half of `startRecording` (lines 245-335), entered with a stream in
hand: re-check for live tracks, probe the MIME preference list (failing with
the no-supported-format error before any recorder is created), then create
the `MediaRecorder` with a fresh chunk buffer, start it, raise the recording
flag, reset the elapsed time and start the 1-second tick interval. -/
def afterAcquire (sup : String → Bool) (s : Sess) (ts : List TrackState)
    (tr : List Action) : Sess × List Action :=
  if liveCount ts = 0 then
    (startCatch s noActiveTrackMsg,
     tr ++ [Action.surfaceError noActiveTrackMsg, Action.releaseResources])
  else
    match selectMimeType sup s.recordingMode with
    | none =>
        (startCatch s noFormatMsg,
         tr ++ [Action.surfaceError noFormatMsg, Action.releaseResources])
    | some mt =>
        ({ s with
            mediaRecorder := some
              { recState := RecState.recording, chunks := [],
                stopPending := false, mimeType := mt }
            isRecording := true
            recordingTime := 0
            intervalRunning := true
            isInitializing := false },
         tr)

/-- The acquisition arm of `startRecording`: call `requestMediaAccess` and
either continue with the obtained stream or run `startRecording`'s catch on
the rethrown message. -/
def viaAcquire (d : List DeviceKind) (gum : Except JsError (List TrackState))
    (sup : String → Bool) (s0 : Sess) : Sess × List Action :=
  let r := requestMediaAccess d gum s0
  match r.2.2 with
  | Except.error msg =>
      (startCatch r.1 msg,
       r.2.1 ++ [Action.surfaceError msg, Action.releaseResources])
  | Except.ok ts => afterAcquire sup r.1 ts r.2.1

/-- `startRecording` (lines 221-351): set `isInitializing`, clear the error;
reuse the held stream when it still has a live track, otherwise (re)acquire
via `requestMediaAccess`; then proceed to recorder creation and start. -/
def startRecording (d : List DeviceKind) (gum : Except JsError (List TrackState))
    (sup : String → Bool) (s : Sess) : Sess × List Action :=
  let s0 : Sess := { s with isInitializing := true, error := none }
  match s.stream with
  | some ts =>
      if liveCount ts = 0 then viaAcquire d gum sup s0
      else afterAcquire sup s0 ts []
  | none => viaAcquire d gum sup s0

/-- The `ondataavailable` handler (lines 288-293): append the delivered chunk
to the buffer when its size is nonzero, discard it otherwise. -/
def onDataAvailable (s : Sess) (data : List Nat) : Sess :=
  match s.mediaRecorder with
  | none => s
  | some r =>
      if data.length > 0 then
        { s with mediaRecorder := some { r with chunks := r.chunks ++ [data] } }
      else s

/-- The `onstop` handler (lines 295-312): when the chunk buffer is nonempty,
concatenate it into a single blob typed `video/webm` or `audio/webm`
according to the mode and publish it; otherwise surface the no-data error and
leave the artifact slot untouched.  Either way, unbind the preview. -/
def onStop (s : Sess) : Sess :=
  match s.mediaRecorder with
  | none => s
  | some r =>
      let s1 : Sess :=
        if r.chunks.length > 0 then
          { s with recordedBlob := some (MediaBlob.mk r.chunks.flatten
              (if s.recordingMode == RecordingMode.video
               then "video/webm" else "audio/webm")) }
        else { s with error := some noDataMsg }
      { s1 with
          videoSrcBound := false
          isVideoEnabled := false
          mediaRecorder := some { r with stopPending := false } }

/-- The `onerror` handler (lines 314-319) together with the platform's
behavior on a fatal recorder error (the recorder becomes inactive and an
`onstop` will follow): surface the recording error, drop the recording flag —
but note the tick interval is left running. -/
def onRecorderError (s : Sess) (msg : String) : Sess :=
  match s.mediaRecorder with
  | none => s
  | some r =>
      { s with
          error := some ("Erreur lors de l\x27enregistrement: " ++ msg)
          isRecording := false
          mediaRecorder := some
            { r with recState := RecState.inactive, stopPending := true } }

/-- `stopRecording` (lines 353-372): when a recorder is held and recording is
on, call `recorder.stop()` (if its state is `recording`), drop the recording
flag and clear the tick interval.  The held stream's tracks are NOT stopped
here. -/
def stopRecording (s : Sess) : Sess :=
  match s.mediaRecorder with
  | none => s
  | some r =>
      if s.isRecording then
        { s with
            mediaRecorder := some
              (if r.recState == RecState.recording then
                { r with recState := RecState.inactive, stopPending := true }
              else r)
            isRecording := false
            intervalRunning := false }
      else s

/-- `resetRecording` (lines 389-395): discard the artifact, reset the elapsed
time, clear the error, run full teardown, and reset the permission status. -/
def resetRecording (s : Sess) : Sess :=
  { cleanupResources
      { s with recordedBlob := none, recordingTime := 0, error := none } with
      permissionStatus := PermissionStatus.unknown }

/-- The mode-selector buttons (lines 417-448): disabled while recording or
initializing (the click then has no effect); otherwise set the new mode and
run `resetRecording`. -/
def modeChanged (s : Sess) (m : RecordingMode) : Sess :=
  if s.isRecording || s.isInitializing then s
  else resetRecording { s with recordingMode := m }

/-- One firing of the 1-second tick interval (lines 331-333). -/
def tickTimer (s : Sess) : Sess :=
  if s.intervalRunning then { s with recordingTime := s.recordingTime + 1 }
  else s

/-- Reachable page states: the initial state, closed under every user action
and platform callback the page handles.  `d`, `gum` and `sup` are the
platform's device enumeration, `getUserMedia` outcome and
`isTypeSupported` predicate for the given attempt. -/
inductive Reach : Sess → Prop where
  | init : Reach initialState
  | start (d : List DeviceKind) (gum : Except JsError (List TrackState))
      (sup : String → Bool) {s : Sess} : Reach s →
      s.isRecording = false → s.isInitializing = false →
      Reach (startRecording d gum sup s).1
  | stopReq {s : Sess} : Reach s → s.isRecording = true →
      Reach (stopRecording s)
  | dataArrives {s : Sess} (c : List Nat) : Reach s →
      Reach (onDataAvailable s c)
  | stopFired {s : Sess} {r : RecorderHandle} : Reach s →
      s.mediaRecorder = some r → r.stopPending = true → Reach (onStop s)
  | recErr {s : Sess} {r : RecorderHandle} (msg : String) : Reach s →
      s.mediaRecorder = some r → r.recState = RecState.recording →
      Reach (onRecorderError s msg)
  | resetReq {s : Sess} : Reach s → (s.recordedBlob).isSome = true →
      Reach (resetRecording s)
  | modeReq {s : Sess} (m : RecordingMode) : Reach s →
      Reach (modeChanged s m)
  | timerTick {s : Sess} : Reach s → Reach (tickTimer s)
  | unmount {s : Sess} : Reach s → Reach (cleanupResources s)

/-- The resource invariant the reachable states actually maintain: an
actively-recording recorder only exists while the recording flag is up; the
tick interval can only run while recording or after an error has been
surfaced; a live stream is only held once permission was granted; the page is
never at rest mid-initialization; and every released track is `ended`. -/
def Inv (s : Sess) : Prop :=
  (recorderActive s = true → s.isRecording = true) ∧
  (s.intervalRunning = true → s.isRecording = true ∨ s.error ≠ none) ∧
  (holdsLiveStream s = true → s.permissionStatus = PermissionStatus.granted) ∧
  s.isInitializing = false ∧
  s.graveyard.all (· == TrackState.ended) = true

theorem cleanup_graveyard_all {s : Sess}
    (h : s.graveyard.all (· == TrackState.ended) = true) :
    (cleanupResources s).graveyard.all (· == TrackState.ended) = true := by
  cases hs : s.stream <;>
    simp [cleanupResources, hs, List.all_append, h, List.all_map, Function.comp]

theorem inv_cleanup {s : Sess} (h : Inv s) : Inv (cleanupResources s) := by
  obtain ⟨_, _, _, h4, h5⟩ := h
  refine ⟨?_, ?_, ?_, ?_, cleanup_graveyard_all h5⟩ <;>
    simp [cleanupResources, recorderActive, holdsLiveStream, h4]

theorem startCatch_spec (s : Sess) (msg : String) :
    (startCatch s msg).mediaRecorder = none ∧
    (startCatch s msg).stream = none ∧
    (startCatch s msg).intervalRunning = false ∧
    (startCatch s msg).videoSrcBound = false ∧
    (startCatch s msg).isRecording = false ∧
    (startCatch s msg).isInitializing = false ∧
    (startCatch s msg).error = none ∧
    (startCatch s msg).recordedBlob = s.recordedBlob ∧
    (startCatch s msg).permissionStatus = s.permissionStatus ∧
    (s.graveyard.all (· == TrackState.ended) = true →
      (startCatch s msg).graveyard.all (· == TrackState.ended) = true) := by
  refine ⟨rfl, rfl, rfl, rfl, rfl, rfl, rfl, rfl, rfl, fun h => ?_⟩
  exact cleanup_graveyard_all (s := { s with error := some msg, isRecording := false }) h

theorem inv_startCatch {s : Sess}
    (h : s.graveyard.all (· == TrackState.ended) = true) (msg : String) :
    Inv (startCatch s msg) := by
  obtain ⟨h1, h2, h3, h4, h5, h6, h7, h8, h9, h10⟩ := startCatch_spec s msg
  refine ⟨?_, ?_, ?_, h6, h10 h⟩
  · simp [recorderActive, h1]
  · simp [h3]
  · simp [holdsLiveStream, h2]

theorem rmaCatch_graveyard {s : Sess} {e : JsError}
    (hg : s.graveyard.all (· == TrackState.ended) = true) :
    (rmaCatch s e).1.graveyard.all (· == TrackState.ended) = true :=
  cleanup_graveyard_all (s := { s with permissionStatus := PermissionStatus.denied }) hg

theorem rma_devcheck_fail {d : List DeviceKind} {gum : Except JsError (List TrackState)}
    {s : Sess} {e : JsError}
    (hc : checkDeviceAvailability d s.recordingMode = Except.error e) :
    requestMediaAccess d gum s =
      ((rmaCatch { s with isInitializing := true, error := none } e).1,
       Action.checkDevices ::
         (rmaCatch { s with isInitializing := true, error := none } e).2.1,
       (rmaCatch { s with isInitializing := true, error := none } e).2.2) := by
  unfold requestMediaAccess
  rw [hc]

theorem rma_gum_fail {d : List DeviceKind} {s : Sess} {e : JsError}
    (hc : checkDeviceAvailability d s.recordingMode = Except.ok ()) :
    requestMediaAccess d (Except.error e) s =
      ((rmaCatch (cleanupResources { s with isInitializing := true, error := none }) e).1,
       [Action.checkDevices, Action.releaseResources, Action.callGetUserMedia] ++
         (rmaCatch (cleanupResources { s with isInitializing := true, error := none }) e).2.1,
       (rmaCatch (cleanupResources { s with isInitializing := true, error := none }) e).2.2) := by
  unfold requestMediaAccess
  rw [hc]

theorem rma_empty_stream {d : List DeviceKind} {s : Sess} {ts : List TrackState}
    (hc : checkDeviceAvailability d s.recordingMode = Except.ok ())
    (hlen : ts.length = 0) :
    requestMediaAccess d (Except.ok ts) s =
      ((rmaCatch (cleanupResources { s with isInitializing := true, error := none })
          { name := ErrName.generic, message := invalidStreamMsg }).1,
       [Action.checkDevices, Action.releaseResources, Action.callGetUserMedia] ++
         (rmaCatch (cleanupResources { s with isInitializing := true, error := none })
            { name := ErrName.generic, message := invalidStreamMsg }).2.1,
       (rmaCatch (cleanupResources { s with isInitializing := true, error := none })
          { name := ErrName.generic, message := invalidStreamMsg }).2.2) := by
  unfold requestMediaAccess
  rw [hc]
  dsimp only
  rw [if_pos hlen]

theorem rma_zero_live {d : List DeviceKind} {s : Sess} {ts : List TrackState}
    (hc : checkDeviceAvailability d s.recordingMode = Except.ok ())
    (hlen : ¬ ts.length = 0) (hlive : liveCount ts = 0) :
    requestMediaAccess d (Except.ok ts) s =
      ((rmaCatch
          { cleanupResources { s with isInitializing := true, error := none } with
              graveyard :=
                (cleanupResources { s with isInitializing := true, error := none }).graveyard
                  ++ ts.map (fun _ => TrackState.ended) }
          { name := ErrName.generic, message := noLiveTrackMsg }).1,
       [Action.checkDevices, Action.releaseResources, Action.callGetUserMedia,
        Action.stopAcquiredTracks] ++
         (rmaCatch
            { cleanupResources { s with isInitializing := true, error := none } with
                graveyard :=
                  (cleanupResources { s with isInitializing := true, error := none }).graveyard
                    ++ ts.map (fun _ => TrackState.ended) }
            { name := ErrName.generic, message := noLiveTrackMsg }).2.1,
       (rmaCatch
          { cleanupResources { s with isInitializing := true, error := none } with
              graveyard :=
                (cleanupResources { s with isInitializing := true, error := none }).graveyard
                  ++ ts.map (fun _ => TrackState.ended) }
          { name := ErrName.generic, message := noLiveTrackMsg }).2.2) := by
  unfold requestMediaAccess
  rw [hc]
  dsimp only
  rw [if_neg hlen, if_pos hlive]

theorem rma_success {d : List DeviceKind} {s : Sess} {ts : List TrackState}
    (hc : checkDeviceAvailability d s.recordingMode = Except.ok ())
    (hlen : ¬ ts.length = 0) (hlive : ¬ liveCount ts = 0) :
    requestMediaAccess d (Except.ok ts) s =
      ({ (if s.recordingMode == RecordingMode.video then
            { cleanupResources { s with isInitializing := true, error := none } with
                stream := some ts, permissionStatus := PermissionStatus.granted,
                videoSrcBound := true, isVideoEnabled := true }
          else
            { cleanupResources { s with isInitializing := true, error := none } with
                stream := some ts, permissionStatus := PermissionStatus.granted }) with
          isInitializing := false },
       [Action.checkDevices, Action.releaseResources, Action.callGetUserMedia,
        Action.storeStream] ++
         (if s.recordingMode == RecordingMode.video then [Action.bindPreview] else []),
       Except.ok ts) := by
  unfold requestMediaAccess
  rw [hc]
  dsimp only
  rw [if_neg hlen, if_neg hlive]

theorem rma_error_spec {d : List DeviceKind} {gum : Except JsError (List TrackState)}
    {s : Sess} {msg : String}
    (h : (requestMediaAccess d gum s).2.2 = Except.error msg) :
    (requestMediaAccess d gum s).1.mediaRecorder = none ∧
    (requestMediaAccess d gum s).1.stream = none ∧
    (requestMediaAccess d gum s).1.intervalRunning = false ∧
    (requestMediaAccess d gum s).1.videoSrcBound = false ∧
    (requestMediaAccess d gum s).1.error = some msg ∧
    (requestMediaAccess d gum s).1.isInitializing = false ∧
    (requestMediaAccess d gum s).1.permissionStatus = PermissionStatus.denied ∧
    (requestMediaAccess d gum s).1.isRecording = s.isRecording ∧
    (requestMediaAccess d gum s).1.recordedBlob = s.recordedBlob ∧
    (requestMediaAccess d gum s).1.recordingMode = s.recordingMode ∧
    (s.graveyard.all (· == TrackState.ended) = true →
      (requestMediaAccess d gum s).1.graveyard.all (· == TrackState.ended) = true) := by
  rcases hc : checkDeviceAvailability d s.recordingMode with e | u
  · rw [rma_devcheck_fail hc] at h ⊢
    simp only [rmaCatch] at h
    rw [Except.error.injEq] at h
    refine ⟨rfl, rfl, rfl, rfl, ?_, rfl, rfl, rfl, rfl, rfl, fun hg => ?_⟩
    · simp [rmaCatch, h]
    · exact rmaCatch_graveyard (s := { s with isInitializing := true, error := none }) hg
  · cases u
    rcases gum with e | ts
    · rw [rma_gum_fail hc] at h ⊢
      simp only [rmaCatch] at h
      rw [Except.error.injEq] at h
      refine ⟨rfl, rfl, rfl, rfl, ?_, rfl, rfl, rfl, rfl, rfl, fun hg => ?_⟩
      · simp [rmaCatch, h]
      · exact rmaCatch_graveyard (cleanup_graveyard_all hg)
    · by_cases hlen : ts.length = 0
      · rw [rma_empty_stream hc hlen] at h ⊢
        simp only [rmaCatch] at h
        rw [Except.error.injEq] at h
        refine ⟨rfl, rfl, rfl, rfl, ?_, rfl, rfl, rfl, rfl, rfl, fun hg => ?_⟩
        · simp [rmaCatch, h]
        · exact rmaCatch_graveyard (cleanup_graveyard_all hg)
      · by_cases hlive : liveCount ts = 0
        · rw [rma_zero_live hc hlen hlive] at h ⊢
          simp only [rmaCatch] at h
          rw [Except.error.injEq] at h
          refine ⟨rfl, rfl, rfl, rfl, ?_, rfl, rfl, rfl, rfl, rfl, fun hg => ?_⟩
          · simp [rmaCatch, h]
          · refine rmaCatch_graveyard ?_
            rw [List.all_append, Bool.and_eq_true]
            refine ⟨cleanup_graveyard_all hg, ?_⟩
            simp [List.all_map, Function.comp]
        · rw [rma_success hc hlen hlive] at h
          simp at h

theorem rma_ok_spec {d : List DeviceKind} {gum : Except JsError (List TrackState)}
    {s : Sess} {ts : List TrackState}
    (h : (requestMediaAccess d gum s).2.2 = Except.ok ts) :
    liveCount ts ≠ 0 ∧
    (requestMediaAccess d gum s).1.stream = some ts ∧
    (requestMediaAccess d gum s).1.mediaRecorder = none ∧
    (requestMediaAccess d gum s).1.intervalRunning = false ∧
    (requestMediaAccess d gum s).1.permissionStatus = PermissionStatus.granted ∧
    (requestMediaAccess d gum s).1.isInitializing = false ∧
    (requestMediaAccess d gum s).1.error = none ∧
    (requestMediaAccess d gum s).1.isRecording = s.isRecording ∧
    (requestMediaAccess d gum s).1.recordedBlob = s.recordedBlob ∧
    (requestMediaAccess d gum s).1.recordingMode = s.recordingMode ∧
    (s.graveyard.all (· == TrackState.ended) = true →
      (requestMediaAccess d gum s).1.graveyard.all (· == TrackState.ended) = true) := by
  rcases hc : checkDeviceAvailability d s.recordingMode with e | u
  · rw [rma_devcheck_fail hc] at h
    simp [rmaCatch] at h
  · cases u
    rcases gum with e | ts0
    · rw [rma_gum_fail hc] at h
      simp [rmaCatch] at h
    · by_cases hlen : ts0.length = 0
      · rw [rma_empty_stream hc hlen] at h
        simp [rmaCatch] at h
      · by_cases hlive : liveCount ts0 = 0
        · rw [rma_zero_live hc hlen hlive] at h
          simp [rmaCatch] at h
        · rw [rma_success hc hlen hlive] at h
          rw [Except.ok.injEq] at h
          subst h
          rw [rma_success hc hlen hlive]
          by_cases hv : (s.recordingMode == RecordingMode.video) = true
          · rw [if_pos hv]
            exact ⟨hlive, rfl, rfl, rfl, rfl, rfl, rfl, rfl, rfl, rfl,
              fun hg => cleanup_graveyard_all hg⟩
          · rw [if_neg hv]
            exact ⟨hlive, rfl, rfl, rfl, rfl, rfl, rfl, rfl, rfl, rfl,
              fun hg => cleanup_graveyard_all hg⟩

theorem afterAcquire_success {sup : String → Bool} {s : Sess} {ts : List TrackState}
    {tr : List Action} {mt : String}
    (hlive : ¬ liveCount ts = 0) (hm : selectMimeType sup s.recordingMode = some mt) :
    afterAcquire sup s ts tr =
      ({ s with
          mediaRecorder := some
            { recState := RecState.recording, chunks := [],
              stopPending := false, mimeType := mt }
          isRecording := true
          recordingTime := 0
          intervalRunning := true
          isInitializing := false }, tr) := by
  unfold afterAcquire
  rw [if_neg hlive, hm]

theorem afterAcquire_noFormat {sup : String → Bool} {s : Sess} {ts : List TrackState}
    {tr : List Action}
    (hlive : ¬ liveCount ts = 0) (hm : selectMimeType sup s.recordingMode = none) :
    afterAcquire sup s ts tr =
      (startCatch s noFormatMsg,
       tr ++ [Action.surfaceError noFormatMsg, Action.releaseResources]) := by
  unfold afterAcquire
  rw [if_neg hlive, hm]

theorem afterAcquire_zeroLive {sup : String → Bool} {s : Sess} {ts : List TrackState}
    {tr : List Action} (hlive : liveCount ts = 0) :
    afterAcquire sup s ts tr =
      (startCatch s noActiveTrackMsg,
       tr ++ [Action.surfaceError noActiveTrackMsg, Action.releaseResources]) := by
  unfold afterAcquire
  rw [if_pos hlive]

theorem viaAcquire_error {d : List DeviceKind} {gum : Except JsError (List TrackState)}
    {sup : String → Bool} {s0 : Sess} {msg : String}
    (h : (requestMediaAccess d gum s0).2.2 = Except.error msg) :
    viaAcquire d gum sup s0 =
      (startCatch (requestMediaAccess d gum s0).1 msg,
       (requestMediaAccess d gum s0).2.1 ++
         [Action.surfaceError msg, Action.releaseResources]) := by
  unfold viaAcquire
  dsimp only
  rw [h]

theorem viaAcquire_ok {d : List DeviceKind} {gum : Except JsError (List TrackState)}
    {sup : String → Bool} {s0 : Sess} {ts : List TrackState}
    (h : (requestMediaAccess d gum s0).2.2 = Except.ok ts) :
    viaAcquire d gum sup s0 =
      afterAcquire sup (requestMediaAccess d gum s0).1 ts
        (requestMediaAccess d gum s0).2.1 := by
  unfold viaAcquire
  dsimp only
  rw [h]

theorem startRecording_reuse {d : List DeviceKind} {gum : Except JsError (List TrackState)}
    {sup : String → Bool} {s : Sess} {ts : List TrackState}
    (hs : s.stream = some ts) (hlive : ¬ liveCount ts = 0) :
    startRecording d gum sup s =
      afterAcquire sup { s with isInitializing := true, error := none } ts [] := by
  unfold startRecording
  rw [hs]
  dsimp only
  rw [if_neg hlive]

theorem startRecording_acquire_none {d : List DeviceKind}
    {gum : Except JsError (List TrackState)} {sup : String → Bool} {s : Sess}
    (hs : s.stream = none) :
    startRecording d gum sup s =
      viaAcquire d gum sup { s with isInitializing := true, error := none } := by
  unfold startRecording
  rw [hs]

theorem startRecording_acquire_dead {d : List DeviceKind}
    {gum : Except JsError (List TrackState)} {sup : String → Bool} {s : Sess}
    {ts : List TrackState} (hs : s.stream = some ts) (hlive : liveCount ts = 0) :
    startRecording d gum sup s =
      viaAcquire d gum sup { s with isInitializing := true, error := none } := by
  unfold startRecording
  rw [hs]
  dsimp only
  rw [if_pos hlive]

theorem inv_viaAcquire {d : List DeviceKind} {gum : Except JsError (List TrackState)}
    {sup : String → Bool} {s0 : Sess}
    (hg : s0.graveyard.all (· == TrackState.ended) = true) :
    Inv (viaAcquire d gum sup s0).1 := by
  rcases hr : (requestMediaAccess d gum s0).2.2 with msg | ts
  · rw [viaAcquire_error hr]
    exact inv_startCatch ((rma_error_spec hr).2.2.2.2.2.2.2.2.2.2 hg) msg
  · rw [viaAcquire_ok hr]
    obtain ⟨hlive, hstream, hrec, hint, hperm, hinit, herr, hisrec, hblob, hmode, hgy⟩ :=
      rma_ok_spec hr
    rcases hm : selectMimeType sup (requestMediaAccess d gum s0).1.recordingMode with _ | mt
    · rw [afterAcquire_noFormat hlive hm]
      exact inv_startCatch (hgy hg) noFormatMsg
    · rw [afterAcquire_success hlive hm]
      exact ⟨fun _ => rfl, fun _ => Or.inl rfl, fun _ => hperm, rfl, hgy hg⟩

theorem inv_start {d : List DeviceKind} {gum : Except JsError (List TrackState)}
    {sup : String → Bool} {s : Sess} (h : Inv s) :
    Inv (startRecording d gum sup s).1 := by
  obtain ⟨h1, h2, h3, h4, h5⟩ := h
  rcases hs : s.stream with _ | ts
  · rw [startRecording_acquire_none hs]
    exact inv_viaAcquire h5
  · by_cases hlive : liveCount ts = 0
    · rw [startRecording_acquire_dead hs hlive]
      exact inv_viaAcquire h5
    · rw [startRecording_reuse hs hlive]
      rcases hm : selectMimeType sup s.recordingMode with _ | mt
      · rw [afterAcquire_noFormat (s := { s with isInitializing := true, error := none })
          hlive hm]
        exact inv_startCatch h5 noFormatMsg
      · rw [afterAcquire_success (s := { s with isInitializing := true, error := none })
          hlive hm]
        refine ⟨fun _ => rfl, fun _ => Or.inl rfl, fun _ => ?_, rfl, h5⟩
        refine h3 ?_
        simp [holdsLiveStream, hs, hlive]

theorem inv_reset {s : Sess} (h : Inv s) : Inv (resetRecording s) := by
  obtain ⟨_, _, _, i4, i5⟩ := h
  refine ⟨?_, ?_, ?_, i4, ?_⟩
  · intro hx; simp [recorderActive, resetRecording, cleanupResources] at hx
  · intro hx; simp [resetRecording, cleanupResources] at hx
  · intro hx; simp [holdsLiveStream, resetRecording, cleanupResources] at hx
  · exact cleanup_graveyard_all
      (s := { s with recordedBlob := none, recordingTime := 0, error := none }) i5

theorem reach_inv {s : Sess} (h : Reach s) : Inv s := by
  induction h with
  | init =>
      refine ⟨fun hx => ?_, fun hx => ?_, fun hx => ?_, rfl, rfl⟩ <;>
        simp [recorderActive, holdsLiveStream, initialState] at hx
  | start d gum sup hR hr hi ih => exact inv_start ih
  | @stopReq s hR hrec ih =>
      obtain ⟨i1, i2, i3, i4, i5⟩ := ih
      unfold stopRecording
      rcases hm : s.mediaRecorder with _ | r
      · exact ⟨i1, i2, i3, i4, i5⟩
      · dsimp only
        rw [if_pos hrec]
        refine ⟨?_, ?_, fun hl => i3 hl, i4, i5⟩
        · intro hx
          exfalso
          rcases hrr : r.recState <;> simp [recorderActive, hrr] at hx
        · intro hx; simp at hx
  | @dataArrives s c hR ih =>
      obtain ⟨i1, i2, i3, i4, i5⟩ := ih
      unfold onDataAvailable
      rcases hm : s.mediaRecorder with _ | r
      · exact ⟨i1, i2, i3, i4, i5⟩
      · dsimp only
        by_cases hlen : c.length > 0
        · rw [if_pos hlen]
          refine ⟨?_, i2, fun hl => i3 hl, i4, i5⟩
          intro hx
          apply i1
          simpa [recorderActive, hm] using hx
        · rw [if_neg hlen]
          exact ⟨i1, i2, i3, i4, i5⟩
  | @stopFired s r hR hm hp ih =>
      obtain ⟨i1, i2, i3, i4, i5⟩ := ih
      unfold onStop
      rw [hm]
      dsimp only
      by_cases hch : r.chunks.length > 0
      · rw [if_pos hch]
        refine ⟨?_, i2, fun hl => i3 hl, i4, i5⟩
        intro hx
        apply i1
        simpa [recorderActive, hm] using hx
      · rw [if_neg hch]
        refine ⟨?_, fun _ => Or.inr (by simp), fun hl => i3 hl, i4, i5⟩
        intro hx
        apply i1
        simpa [recorderActive, hm] using hx
  | @recErr s r msg hR hm hrr ih =>
      obtain ⟨i1, i2, i3, i4, i5⟩ := ih
      unfold onRecorderError
      rw [hm]
      refine ⟨?_, fun _ => Or.inr (by simp), fun hl => i3 hl, i4, i5⟩
      intro hx
      simp [recorderActive] at hx
  | @resetReq s hR hb ih => exact inv_reset ih
  | @modeReq s m hR ih =>
      unfold modeChanged
      by_cases hgd : (s.isRecording || s.isInitializing) = true
      · rw [if_pos hgd]; exact ih
      · rw [if_neg hgd]
        exact inv_reset ⟨ih.1, ih.2.1, ih.2.2.1, ih.2.2.2.1, ih.2.2.2.2⟩
  | @timerTick s hR ih =>
      obtain ⟨i1, i2, i3, i4, i5⟩ := ih
      unfold tickTimer
      by_cases hi : s.intervalRunning = true
      · rw [if_pos hi]; exact ⟨i1, i2, i3, i4, i5⟩
      · rw [if_neg hi]; exact ⟨i1, i2, i3, i4, i5⟩
  | @unmount s hR ih => exact inv_cleanup ih

/-- All tracks ever acquired by the session are in a non-live state: every
released (graveyard) track and every track of the currently held stream is
`ended`. -/
def allPastTracksEnded (s : Sess) : Bool :=
  s.graveyard.all (· == TrackState.ended) &&
    (match s.stream with
     | some ts => ts.all (· == TrackState.ended)
     | none => true)

/-- The invariant claimed by the specification (section 4.5): outside the
`recording` state no tick timer runs and no recorder handle is active;
outside `recording`/`initializing`/`stopping` no live stream is held; and in
particular in the idle-with-artifact state (artifact present, not recording,
no stop pending) every previously acquired track is non-live.  The page's
states map as: `recording` = `isRecording`, `initializing` =
`isInitializing`, `stopping` = a recorder `stop()` issued whose `onstop` has
not yet fired. -/
def claimC1 (s : Sess) : Bool :=
  (s.isRecording || (!s.intervalRunning && !recorderActive s)) &&
  (s.isRecording || s.isInitializing || stopPendingB s || !holdsLiveStream s) &&
  (!(!s.isRecording && !stopPendingB s && s.recordedBlob.isSome) ||
    allPastTracksEnded s)

/-- Platform inputs for a demonstration audio-mode session: one audio input
device, a one-track live stream from `getUserMedia`, every MIME type
supported. -/
def demoDevices : List DeviceKind := [DeviceKind.audioinput]

/-- A successful one-live-track `getUserMedia` outcome. -/
def demoGum : Except JsError (List TrackState) := Except.ok [TrackState.live]

/-- A platform that supports every probed MIME type. -/
def demoSup : String → Bool := fun _ => true

/-- The state after a successful audio-mode start from the initial state. -/
def startedAudio : Sess :=
  (startRecording demoDevices demoGum demoSup initialState).1

theorem reach_startedAudio : Reach startedAudio :=
  Reach.start demoDevices demoGum demoSup Reach.init rfl rfl

/-- The idle-with-artifact state reached by: successful audio start, one
nonempty chunk, stop request, `onstop` delivery. -/
def c1BadState : Sess :=
  onStop (stopRecording (onDataAvailable startedAudio [7]))

theorem reach_c1Bad : Reach c1BadState :=
  Reach.stopFired
    (r := { recState := RecState.inactive, chunks := [[7]],
            stopPending := true, mimeType := "audio/webm;codecs=opus" })
    (Reach.stopReq (Reach.dataArrives [7] reach_startedAudio) (by decide))
    (by decide) (by decide)

/-- C1: the claimed invariant fails on the code.  The reachable
idle-with-artifact state produced by start → chunk → stop → onstop still
holds the acquired stream with its track live (`stopRecording` never stops
the stream's tracks; they are retained for reuse by the next start), so the
parts of the claim requiring no live stream and all-previously-acquired
tracks non-live after a stop are false there. -/
theorem c1_state_invariant_counterexample :
    Reach c1BadState ∧ claimC1 c1BadState = false :=
  ⟨reach_c1Bad, by decide⟩

/-- C1 (amended): in every reachable state, outside `recording` no recorder
handle is active, the tick timer only runs while recording or after an error
has been surfaced (a mid-recording recorder error leaves it running), every
released track is non-live, and a live stream — which IS retained after a
stop, for reuse — is only held once permission was granted; it is released
only by reset, mode change, unmount or a failed start. -/
theorem c1_resource_invariant :
    ∀ s : Sess, Reach s →
      (s.isRecording = false → recorderActive s = false) ∧
      (s.intervalRunning = true → s.isRecording = true ∨ s.error ≠ none) ∧
      (holdsLiveStream s = true → s.permissionStatus = PermissionStatus.granted) ∧
      s.graveyard.all (· == TrackState.ended) = true := by
  intro s hs
  obtain ⟨i1, i2, i3, _, i5⟩ := reach_inv hs
  refine ⟨?_, i2, i3, i5⟩
  intro hrec
  cases hra : recorderActive s
  · rfl
  · have h := i1 hra
    rw [hrec] at h
    exact absurd h Bool.false_ne_true

/-- Witness: the amended C1 invariant instantiated at the initial state. -/
theorem c1_resource_invariant_witness :
    (initialState.isRecording = false → recorderActive initialState = false) ∧
    (initialState.intervalRunning = true →
      initialState.isRecording = true ∨ initialState.error ≠ none) ∧
    (holdsLiveStream initialState = true →
      initialState.permissionStatus = PermissionStatus.granted) ∧
    initialState.graveyard.all (· == TrackState.ended) = true :=
  c1_resource_invariant initialState Reach.init

theorem onData_nil (s : Sess) : onDataAvailable s [] = s := by
  unfold onDataAvailable
  rcases hm : s.mediaRecorder with _ | r
  · rfl
  · dsimp only
    rw [if_neg (by simp)]

/-- Fold of a sequence of delivered chunks through `ondataavailable`. -/
def deliver (s : Sess) (cs : List (List Nat)) : Sess :=
  cs.foldl onDataAvailable s

theorem deliver_empty {cs : List (List Nat)}
    (h : ∀ c ∈ cs, c = ([] : List Nat)) (s : Sess) : deliver s cs = s := by
  induction cs generalizing s with
  | nil => rfl
  | cons c cs ih =>
      have hc : c = [] := h c (by simp)
      subst hc
      unfold deliver
      rw [List.foldl_cons, onData_nil]
      exact ih (fun c hc => h c (by simp [hc])) s

theorem viaAcquire_success_spec {d : List DeviceKind}
    {gum : Except JsError (List TrackState)} {sup : String → Bool} {s0 : Sess}
    (h : (viaAcquire d gum sup s0).1.isRecording = true) :
    ∃ mt, (viaAcquire d gum sup s0).1.mediaRecorder =
        some { recState := RecState.recording, chunks := [],
               stopPending := false, mimeType := mt } ∧
      (viaAcquire d gum sup s0).1.recordedBlob = s0.recordedBlob := by
  rcases hr : (requestMediaAccess d gum s0).2.2 with msg | ts
  · rw [viaAcquire_error hr] at h
    simp [startCatch, cleanupResources] at h
  · obtain ⟨hlive, hstream, hrec, hint, hperm, hinit, herr, hisrec, hblob, hmode, hgy⟩ :=
      rma_ok_spec hr
    rw [viaAcquire_ok hr] at h ⊢
    rcases hm : selectMimeType sup (requestMediaAccess d gum s0).1.recordingMode with _ | mt
    · rw [afterAcquire_noFormat hlive hm] at h
      simp [startCatch, cleanupResources] at h
    · rw [afterAcquire_success hlive hm]
      exact ⟨mt, rfl, hblob⟩

theorem start_success_spec {d : List DeviceKind}
    {gum : Except JsError (List TrackState)} {sup : String → Bool} {s : Sess}
    (h : (startRecording d gum sup s).1.isRecording = true) :
    ∃ mt, (startRecording d gum sup s).1.mediaRecorder =
        some { recState := RecState.recording, chunks := [],
               stopPending := false, mimeType := mt } ∧
      (startRecording d gum sup s).1.recordedBlob = s.recordedBlob := by
  rcases hs : s.stream with _ | ts
  · rw [startRecording_acquire_none hs] at h ⊢
    exact viaAcquire_success_spec h
  · by_cases hlive : liveCount ts = 0
    · rw [startRecording_acquire_dead hs hlive] at h ⊢
      exact viaAcquire_success_spec h
    · rw [startRecording_reuse hs hlive] at h ⊢
      rcases hm : selectMimeType sup s.recordingMode with _ | mt
      · rw [afterAcquire_noFormat (s := { s with isInitializing := true, error := none })
          hlive hm] at h
        simp [startCatch, cleanupResources] at h
      · rw [afterAcquire_success (s := { s with isInitializing := true, error := none })
          hlive hm]
        exact ⟨mt, rfl, rfl⟩

/-- C2: in every recording session in which only zero-size chunks were
delivered before the stop request (so zero non-empty chunks were appended to
the buffer), the `onstop` finalization surfaces the no-data error and
produces no artifact: the artifact slot, empty before the session, is still
empty after it. -/
theorem c2_empty_buffer_no_artifact :
    ∀ (d : List DeviceKind) (gum : Except JsError (List TrackState))
      (sup : String → Bool) (s : Sess) (cs : List (List Nat)),
      s.recordedBlob = none →
      (∀ c ∈ cs, c = ([] : List Nat)) →
      (startRecording d gum sup s).1.isRecording = true →
      (onStop (stopRecording (deliver (startRecording d gum sup s).1 cs))).error
          = some noDataMsg ∧
      (onStop (stopRecording (deliver (startRecording d gum sup s).1 cs))).recordedBlob
          = none := by
  intro d gum sup s cs hb hcs hstart
  obtain ⟨mt, hrec, hblob⟩ := start_success_spec hstart
  rw [deliver_empty hcs]
  have h1 : stopRecording (startRecording d gum sup s).1 =
      { (startRecording d gum sup s).1 with
          mediaRecorder := some
            { recState := RecState.inactive, chunks := [],
              stopPending := true, mimeType := mt }
          isRecording := false
          intervalRunning := false } := by
    unfold stopRecording
    rw [hrec]
    dsimp only
    rw [if_pos hstart]
    rfl
  rw [h1]
  unfold onStop
  dsimp only
  rw [if_neg (by simp)]
  exact ⟨rfl, hblob.trans hb⟩

/-- Witness: C2 for the demonstration audio session with a single zero-size
chunk delivery. -/
theorem c2_empty_buffer_no_artifact_witness :
    (onStop (stopRecording (deliver
        (startRecording demoDevices demoGum demoSup initialState).1 [[]]))).error
      = some noDataMsg ∧
    (onStop (stopRecording (deliver
        (startRecording demoDevices demoGum demoSup initialState).1 [[]]))).recordedBlob
      = none :=
  c2_empty_buffer_no_artifact demoDevices demoGum demoSup initialState [[]]
    rfl (by simp) (by decide)

/-- The final state of the concrete C3 scenario: audio mode, successful
acquisition, chunks of sizes 120, 130 and 0 bytes, then stop and `onstop`. -/
def c3Final : Sess :=
  onStop (stopRecording (onDataAvailable (onDataAvailable (onDataAvailable
    startedAudio (List.replicate 120 1)) (List.replicate 130 2)) []))

set_option maxRecDepth 10000

/-- C3: each nonzero-size chunk is appended to the buffer in arrival order,
each zero-size chunk is discarded, and in the concrete audio scenario with
chunk sizes 120, 130, 0 followed by stop, the artifact is the in-order
concatenation: 250 bytes, category audio (`audio/webm`). -/
theorem c3_chunk_order_and_concat :
    (∀ (s : Sess) (r : RecorderHandle) (c : List Nat),
      s.mediaRecorder = some r → 0 < c.length →
      (onDataAvailable s c).mediaRecorder =
        some { r with chunks := r.chunks ++ [c] }) ∧
    (∀ (s : Sess) (c : List Nat), c.length = 0 → onDataAvailable s c = s) ∧
    c3Final.recordedBlob.map (fun b => (b.data.length, b.mimeType)) =
      some (250, "audio/webm") := by
  refine ⟨?_, ?_, by decide⟩
  · intro s r c hm hc
    unfold onDataAvailable
    rw [hm]
    dsimp only
    rw [if_pos hc]
  · intro s c hc
    rw [List.length_eq_zero] at hc
    subst hc
    exact onData_nil s

/-- Witness: C3's append and discard behaviors at the demonstration session. -/
theorem c3_chunk_order_witness :
    (onDataAvailable startedAudio [5]).mediaRecorder =
      some { recState := RecState.recording, chunks := [[5]],
             stopPending := false, mimeType := "audio/webm;codecs=opus" } ∧
    onDataAvailable startedAudio [] = startedAudio := by
  constructor
  · have h := c3_chunk_order_and_concat.1 startedAudio
      { recState := RecState.recording, chunks := [], stopPending := false,
        mimeType := "audio/webm;codecs=opus" } [5] (by decide) (by decide)
    simpa using h
  · exact c3_chunk_order_and_concat.2.1 startedAudio [] rfl

/-- C9: a mode-change request while recording or initializing is rejected
wholesale — the state (mode, recorder handle, buffer, timer, stream) is
untouched; in any other state the change applies the new mode after full
teardown, discarding any in-progress artifact and releasing every resource. -/
theorem c9_mode_change_guard :
    (∀ (s : Sess) (m : RecordingMode),
      s.isRecording = true ∨ s.isInitializing = true → modeChanged s m = s) ∧
    (∀ (s : Sess) (m : RecordingMode),
      s.isRecording = false → s.isInitializing = false →
      (modeChanged s m).recordingMode = m ∧
      (modeChanged s m).recordedBlob = none ∧
      (modeChanged s m).stream = none ∧
      (modeChanged s m).mediaRecorder = none ∧
      (modeChanged s m).intervalRunning = false ∧
      holdsLiveStream (modeChanged s m) = false) := by
  constructor
  · intro s m h
    unfold modeChanged
    rcases h with h | h <;> rw [if_pos (by simp [h])]
  · intro s m h1 h2
    unfold modeChanged
    rw [if_neg (by simp [h1, h2])]
    exact ⟨rfl, rfl, rfl, rfl, rfl, rfl⟩

/-- Witness: C9 at the started session (rejection) and the initial state
(teardown and mode application). -/
theorem c9_mode_change_guard_witness :
    modeChanged startedAudio RecordingMode.video = startedAudio ∧
    (modeChanged initialState RecordingMode.video).recordingMode
        = RecordingMode.video ∧
    (modeChanged initialState RecordingMode.video).recordedBlob = none ∧
    (modeChanged initialState RecordingMode.video).stream = none ∧
    (modeChanged initialState RecordingMode.video).mediaRecorder = none ∧
    (modeChanged initialState RecordingMode.video).intervalRunning = false ∧
    holdsLiveStream (modeChanged initialState RecordingMode.video) = false :=
  ⟨c9_mode_change_guard.1 startedAudio RecordingMode.video (Or.inl (by decide)),
   (c9_mode_change_guard.2 initialState RecordingMode.video rfl rfl).1,
   (c9_mode_change_guard.2 initialState RecordingMode.video rfl rfl).2.1,
   (c9_mode_change_guard.2 initialState RecordingMode.video rfl rfl).2.2.1,
   (c9_mode_change_guard.2 initialState RecordingMode.video rfl rfl).2.2.2.1,
   (c9_mode_change_guard.2 initialState RecordingMode.video rfl rfl).2.2.2.2.1,
   (c9_mode_change_guard.2 initialState RecordingMode.video rfl rfl).2.2.2.2.2⟩

/-- C10: every acquisition failure — including a failed pre-acquisition
device-availability check and non-permission platform errors — publishes
permission status `denied`; in particular the concrete device-check failure
(no audio device, audio mode), which involves no permission refusal and is
classified through the catch-all branch, still yields `denied`. -/
theorem c10_any_failure_sets_denied :
    (∀ (d : List DeviceKind) (gum : Except JsError (List TrackState))
        (s : Sess) (msg : String),
      (requestMediaAccess d gum s).2.2 = Except.error msg →
      (requestMediaAccess d gum s).1.permissionStatus = PermissionStatus.denied) ∧
    (requestMediaAccess [DeviceKind.videoinput] demoGum initialState).1.permissionStatus
        = PermissionStatus.denied ∧
    acquisitionFailureKind [DeviceKind.videoinput] demoGum RecordingMode.audio
        = some ErrorKind.unknown := by
  refine ⟨?_, by decide, by decide⟩
  intro d gum s msg h
  exact (rma_error_spec h).2.2.2.2.2.2.1

/-- Witness: C10's universal part at a concrete failing acquisition (empty
device list). -/
theorem c10_any_failure_sets_denied_witness :
    (requestMediaAccess [] demoGum initialState).1.permissionStatus
        = PermissionStatus.denied :=
  c10_any_failure_sets_denied.1 [] demoGum initialState micMissingMsg rfl

/-- C7: an acquisition whose stream has zero live tracks is treated as a
failure: the call errors out, the stream is never stored as the session's
stream (and so never handed onward), and — when the stream has tracks — the
stop-all-tracks action runs and the acquired tracks land in the graveyard,
every one of them `ended`. -/
theorem c7_zero_live_stream_rejected :
    ∀ (d : List DeviceKind) (s : Sess) (ts : List TrackState),
      checkDeviceAvailability d s.recordingMode = Except.ok () →
      liveCount ts = 0 →
      (∃ msg, (requestMediaAccess d (Except.ok ts) s).2.2 = Except.error msg) ∧
      (requestMediaAccess d (Except.ok ts) s).1.stream = none ∧
      holdsLiveStream (requestMediaAccess d (Except.ok ts) s).1 = false ∧
      (ts ≠ [] →
        Action.stopAcquiredTracks ∈ (requestMediaAccess d (Except.ok ts) s).2.1 ∧
        ∃ g, (requestMediaAccess d (Except.ok ts) s).1.graveyard =
          g ++ ts.map (fun _ => TrackState.ended)) := by
  intro d s ts hc hlive
  by_cases hlen : ts.length = 0
  · rw [rma_empty_stream hc hlen]
    have hts : ts = [] := List.length_eq_zero.mp hlen
    exact ⟨⟨_, rfl⟩, rfl, rfl, fun hne => absurd hts hne⟩
  · rw [rma_zero_live hc hlen hlive]
    refine ⟨⟨_, rfl⟩, rfl, rfl, fun _ => ⟨?_, ⟨_, rfl⟩⟩⟩
    simp [rmaCatch]

/-- Witness: C7 at a one-ended-track stream in the demonstration setting. -/
theorem c7_zero_live_stream_rejected_witness :
    (∃ msg, (requestMediaAccess demoDevices (Except.ok [TrackState.ended])
        initialState).2.2 = Except.error msg) ∧
    (requestMediaAccess demoDevices (Except.ok [TrackState.ended])
        initialState).1.stream = none ∧
    holdsLiveStream (requestMediaAccess demoDevices (Except.ok [TrackState.ended])
        initialState).1 = false ∧
    ([TrackState.ended] ≠ ([] : List TrackState) →
      Action.stopAcquiredTracks ∈ (requestMediaAccess demoDevices
        (Except.ok [TrackState.ended]) initialState).2.1 ∧
      ∃ g, (requestMediaAccess demoDevices (Except.ok [TrackState.ended])
          initialState).1.graveyard =
        g ++ [TrackState.ended].map (fun _ => TrackState.ended)) :=
  c7_zero_live_stream_rejected demoDevices initialState [TrackState.ended]
    rfl (by decide)

theorem selectMimeType_none_of_unsupported {sup : String → Bool} {m : RecordingMode}
    (h : ∀ t ∈ possibleTypes m, sup t = false) :
    selectMimeType sup m = none := by
  unfold selectMimeType
  rw [List.find?_eq_none]
  intro x hx
  simp [h x hx]

/-- C8: recorder start probes the ordered, mode-specific candidate lists —
video: webm vp9+opus, webm vp8+opus, webm, mp4; audio: webm opus, webm, mp4,
ogg — selecting the first candidate the platform supports (fully
characterized by the nested conditionals below), and when the platform
supports none of the candidates the start fails with the
no-supported-format error and no recorder is ever created. -/
theorem c8_format_probe :
    (∀ sup : String → Bool, selectMimeType sup RecordingMode.video =
      if sup "video/webm;codecs=vp9,opus" then some "video/webm;codecs=vp9,opus"
      else if sup "video/webm;codecs=vp8,opus" then some "video/webm;codecs=vp8,opus"
      else if sup "video/webm" then some "video/webm"
      else if sup "video/mp4" then some "video/mp4"
      else none) ∧
    (∀ sup : String → Bool, selectMimeType sup RecordingMode.audio =
      if sup "audio/webm;codecs=opus" then some "audio/webm;codecs=opus"
      else if sup "audio/webm" then some "audio/webm"
      else if sup "audio/mp4" then some "audio/mp4"
      else if sup "audio/ogg" then some "audio/ogg"
      else none) ∧
    (∀ (d : List DeviceKind) (gum : Except JsError (List TrackState))
        (sup : String → Bool) (s : Sess),
      (∀ t ∈ possibleTypes s.recordingMode, sup t = false) →
      (startRecording d gum sup s).1.isRecording = false ∧
      (startRecording d gum sup s).1.mediaRecorder = none ∧
      (startRecording d gum sup s).1.error = none) := by
  refine ⟨?_, ?_, ?_⟩
  · intro sup
    rcases h1 : sup "video/webm;codecs=vp9,opus" <;>
      rcases h2 : sup "video/webm;codecs=vp8,opus" <;>
      rcases h3 : sup "video/webm" <;>
      rcases h4 : sup "video/mp4" <;>
      simp [selectMimeType, possibleTypes, List.find?, h1, h2, h3, h4]
  · intro sup
    rcases h1 : sup "audio/webm;codecs=opus" <;>
      rcases h2 : sup "audio/webm" <;>
      rcases h3 : sup "audio/mp4" <;>
      rcases h4 : sup "audio/ogg" <;>
      simp [selectMimeType, possibleTypes, List.find?, h1, h2, h3, h4]
  · intro d gum sup s hall
    have hm : selectMimeType sup s.recordingMode = none :=
      selectMimeType_none_of_unsupported hall
    rcases hs : s.stream with _ | ts
    · rw [startRecording_acquire_none hs]
      rcases hr : (requestMediaAccess d gum
          { s with isInitializing := true, error := none }).2.2 with msg | ts
      · rw [viaAcquire_error hr]
        exact ⟨rfl, rfl, rfl⟩
      · obtain ⟨hlive, _, _, _, _, _, _, _, _, hmode, _⟩ := rma_ok_spec hr
        rw [viaAcquire_ok hr]
        have hm2 : selectMimeType sup (requestMediaAccess d gum
            { s with isInitializing := true, error := none }).1.recordingMode = none := by
          rw [hmode]; exact hm
        rw [afterAcquire_noFormat hlive hm2]
        exact ⟨rfl, rfl, rfl⟩
    · by_cases hlive : liveCount ts = 0
      · rw [startRecording_acquire_dead hs hlive]
        rcases hr : (requestMediaAccess d gum
            { s with isInitializing := true, error := none }).2.2 with msg | ts2
        · rw [viaAcquire_error hr]
          exact ⟨rfl, rfl, rfl⟩
        · obtain ⟨hlive2, _, _, _, _, _, _, _, _, hmode, _⟩ := rma_ok_spec hr
          rw [viaAcquire_ok hr]
          have hm2 : selectMimeType sup (requestMediaAccess d gum
              { s with isInitializing := true, error := none }).1.recordingMode = none := by
            rw [hmode]; exact hm
          rw [afterAcquire_noFormat hlive2 hm2]
          exact ⟨rfl, rfl, rfl⟩
      · rw [startRecording_reuse hs hlive]
        rw [afterAcquire_noFormat (s := { s with isInitializing := true, error := none })
          hlive hm]
        exact ⟨rfl, rfl, rfl⟩

/-- Witness: C8 with a platform supporting only mp4 (video list fourth
candidate selected) and one supporting nothing (start fails, no recorder). -/
theorem c8_format_probe_witness :
    selectMimeType (fun t => t == "video/mp4") RecordingMode.video
        = some "video/mp4" ∧
    (startRecording demoDevices demoGum (fun _ => false) initialState).1.isRecording
        = false ∧
    (startRecording demoDevices demoGum (fun _ => false) initialState).1.mediaRecorder
        = none ∧
    (startRecording demoDevices demoGum (fun _ => false) initialState).1.error
        = none :=
  ⟨by rw [c8_format_probe.1 (fun t => t == "video/mp4")]; decide,
   (c8_format_probe.2.2 demoDevices demoGum (fun _ => false) initialState
      (by decide)).1,
   (c8_format_probe.2.2 demoDevices demoGum (fun _ => false) initialState
      (by decide)).2.1,
   (c8_format_probe.2.2 demoDevices demoGum (fun _ => false) initialState
      (by decide)).2.2⟩

/-- C6: the claimed DeviceNotFound classification fails on the code.  With no
audio input device enumerated (audio mode), the start does fail fast and
`getUserMedia` is never invoked, but the device-check error is a plain
`Error`: it reaches the classifier's `default` (catch-all / Unknown) branch,
which passes the original check message through — not the `NotFoundError` →
DeviceNotFound branch. -/
theorem c6_not_classified_deviceNotFound :
    acquisitionFailureKind [DeviceKind.videoinput] demoGum RecordingMode.audio
        = some ErrorKind.unknown ∧
    some ErrorKind.unknown ≠ some ErrorKind.deviceNotFound ∧
    Action.callGetUserMedia ∉
      (requestMediaAccess [DeviceKind.videoinput] demoGum initialState).2.1 ∧
    (requestMediaAccess [DeviceKind.videoinput] demoGum initialState).1.error
        = some micMissingMsg := by
  refine ⟨by decide, by decide, by decide, rfl⟩

/-- C6 (amended): for every mode (both implemented modes require audio), when
device enumeration reports no audio-capable input the start attempt fails
fast — `getUserMedia` is never invoked — surfacing the device-check message
through the classifier's catch-all (Unknown) branch. -/
theorem c6_no_audio_fails_fast :
    ∀ (d : List DeviceKind) (gum : Except JsError (List TrackState)) (s : Sess),
      d.any (· == DeviceKind.audioinput) = false →
      (requestMediaAccess d gum s).2.2 = Except.error micMissingMsg ∧
      (requestMediaAccess d gum s).1.error = some micMissingMsg ∧
      Action.callGetUserMedia ∉ (requestMediaAccess d gum s).2.1 ∧
      acquisitionFailureKind d gum s.recordingMode = some ErrorKind.unknown := by
  intro d gum s hd
  have hc : checkDeviceAvailability d s.recordingMode =
      Except.error { name := ErrName.generic, message := micMissingMsg } := by
    unfold checkDeviceAvailability
    rw [if_pos hd]
  refine ⟨?_, ?_, ?_, ?_⟩
  · rw [rma_devcheck_fail hc]
    rfl
  · rw [rma_devcheck_fail hc]
    rfl
  · rw [rma_devcheck_fail hc]
    simp [rmaCatch]
  · unfold acquisitionFailureKind
    rw [hc]
    rfl

/-- Witness: the amended C6 at an all-video device list. -/
theorem c6_no_audio_fails_fast_witness :
    (requestMediaAccess [DeviceKind.videoinput, DeviceKind.otherKind] demoGum
        initialState).2.2 = Except.error micMissingMsg ∧
    (requestMediaAccess [DeviceKind.videoinput, DeviceKind.otherKind] demoGum
        initialState).1.error = some micMissingMsg ∧
    Action.callGetUserMedia ∉ (requestMediaAccess
        [DeviceKind.videoinput, DeviceKind.otherKind] demoGum initialState).2.1 ∧
    acquisitionFailureKind [DeviceKind.videoinput, DeviceKind.otherKind] demoGum
        RecordingMode.audio = some ErrorKind.unknown :=
  c6_no_audio_fails_fast [DeviceKind.videoinput, DeviceKind.otherKind] demoGum
    initialState (by decide)

/-- No live capture resource is held: no stream, no recorder handle, no
running tick interval, no preview binding, and every released track ended. -/
def noLiveResources (s : Sess) : Prop :=
  s.stream = none ∧ s.mediaRecorder = none ∧ s.intervalRunning = false ∧
  s.videoSrcBound = false ∧ s.graveyard.all (· == TrackState.ended) = true

theorem noLive_startCatch {s : Sess}
    (hg : s.graveyard.all (· == TrackState.ended) = true) (msg : String) :
    noLiveResources (startCatch s msg) :=
  ⟨rfl, rfl, rfl, rfl, (startCatch_spec s msg).2.2.2.2.2.2.2.2.2 hg⟩

theorem viaAcquire_failure_spec {d : List DeviceKind}
    {gum : Except JsError (List TrackState)} {sup : String → Bool} {s0 : Sess}
    (h : (viaAcquire d gum sup s0).1.isRecording = false)
    (hg : s0.graveyard.all (· == TrackState.ended) = true) :
    noLiveResources (viaAcquire d gum sup s0).1 := by
  rcases hr : (requestMediaAccess d gum s0).2.2 with msg | ts
  · rw [viaAcquire_error hr]
    exact noLive_startCatch ((rma_error_spec hr).2.2.2.2.2.2.2.2.2.2 hg) msg
  · obtain ⟨hlive, _, _, _, _, _, _, _, _, _, hgy⟩ := rma_ok_spec hr
    rw [viaAcquire_ok hr] at h ⊢
    rcases hm : selectMimeType sup
        (requestMediaAccess d gum s0).1.recordingMode with _ | mt
    · rw [afterAcquire_noFormat hlive hm]
      exact noLive_startCatch (hgy hg) noFormatMsg
    · rw [afterAcquire_success hlive hm] at h
      exact absurd h (by simp)

/-- C5: on every acquisition failure path, teardown precedes error surfacing
— in the emitted trace a `releaseResources` action occurs strictly before the
first `surfaceError` — and no live resource survives a failed start: after
any start attempt that does not end up recording, the session holds no
stream, no recorder, no running interval and no preview binding, and every
released track is ended. -/
theorem c5_failure_releases_before_error :
    (∀ (d : List DeviceKind) (gum : Except JsError (List TrackState))
        (s : Sess) (msg : String),
      (requestMediaAccess d gum s).2.2 = Except.error msg →
      releaseBeforeError (requestMediaAccess d gum s).2.1 = true ∧
      (requestMediaAccess d gum s).1.stream = none ∧
      (requestMediaAccess d gum s).1.mediaRecorder = none ∧
      (requestMediaAccess d gum s).1.intervalRunning = false ∧
      (requestMediaAccess d gum s).1.videoSrcBound = false) ∧
    (∀ (d : List DeviceKind) (gum : Except JsError (List TrackState))
        (sup : String → Bool) (s : Sess),
      Reach s →
      (startRecording d gum sup s).1.isRecording = false →
      noLiveResources (startRecording d gum sup s).1) := by
  constructor
  · intro d gum s msg h
    obtain ⟨hrec, hstream, hint, hvid, _⟩ := rma_error_spec h
    refine ⟨?_, hstream, hrec, hint, hvid⟩
    rcases hc : checkDeviceAvailability d s.recordingMode with e | u
    · rw [rma_devcheck_fail hc]
      rfl
    · cases u
      rcases gum with e | ts
      · rw [rma_gum_fail hc]
        rfl
      · by_cases hlen : ts.length = 0
        · rw [rma_empty_stream hc hlen]
          rfl
        · by_cases hlive : liveCount ts = 0
          · rw [rma_zero_live hc hlen hlive]
            rfl
          · rw [rma_success hc hlen hlive] at h
            simp at h
  · intro d gum sup s hR h
    have h5 := (reach_inv hR).2.2.2.2
    rcases hs : s.stream with _ | ts
    · rw [startRecording_acquire_none hs] at h ⊢
      exact viaAcquire_failure_spec h h5
    · by_cases hlive : liveCount ts = 0
      · rw [startRecording_acquire_dead hs hlive] at h ⊢
        exact viaAcquire_failure_spec h h5
      · rw [startRecording_reuse hs hlive] at h ⊢
        rcases hm : selectMimeType sup s.recordingMode with _ | mt
        · rw [afterAcquire_noFormat
            (s := { s with isInitializing := true, error := none }) hlive hm]
          exact noLive_startCatch h5 noFormatMsg
        · rw [afterAcquire_success
            (s := { s with isInitializing := true, error := none }) hlive hm] at h
          exact absurd h (by simp)

/-- Witness: C5 at a concrete failing acquisition (empty device list) and a
concrete failed start (device check fails before anything is acquired). -/
theorem c5_failure_releases_before_error_witness :
    (releaseBeforeError (requestMediaAccess [] demoGum initialState).2.1 = true ∧
      (requestMediaAccess [] demoGum initialState).1.stream = none ∧
      (requestMediaAccess [] demoGum initialState).1.mediaRecorder = none ∧
      (requestMediaAccess [] demoGum initialState).1.intervalRunning = false ∧
      (requestMediaAccess [] demoGum initialState).1.videoSrcBound = false) ∧
    noLiveResources (startRecording [] demoGum demoSup initialState).1 :=
  ⟨c5_failure_releases_before_error.1 [] demoGum initialState micMissingMsg rfl,
   c5_failure_releases_before_error.2 [] demoGum demoSup initialState
     Reach.init (by decide)⟩

/-- Modelled from the spec: the `screen+audio` acquisition path (spec section
4.3) is absent from the sources under `src/` — every RecordPage revision
implements only the `audio` and `video` modes.  Per the spec's words: request
screen capture, then separately acquire a microphone stream and merge all
resulting tracks into one combined stream; if the microphone sub-acquisition
fails, degrade to screen-only (do not fail the whole acquisition) and surface
a non-fatal warning carrying the microphone error's message. -/
def acquireScreenPlusAudio (screen mic : Except JsError (List TrackState)) :
    Except JsError (List TrackState × Option String) :=
  match screen with
  | Except.error e => Except.error e
  | Except.ok scrTracks =>
    match mic with
    | Except.ok micTracks => Except.ok (scrTracks ++ micTracks, none)
    | Except.error e => Except.ok (scrTracks, some e.message)

/-- Modelled from the spec: the controller phase a screen+audio session
reaches once the acquisition outcome is applied. -/
inductive ScrPhase
  | recording
  | errorPhase
deriving DecidableEq, Repr

/-- Modelled from the spec: the screen+audio session after start — its phase,
the tracks it records from, and the surfaced non-fatal warning, if any. -/
structure ScrSession where
  phase : ScrPhase
  tracks : List TrackState
  warning : Option String
deriving DecidableEq, Repr

/-- Modelled from the spec: starting a screen+audio session from the two
sub-acquisition outcomes — recording with the merged tracks on success,
error on acquisition failure. -/
def startScreenPlusAudio (screen mic : Except JsError (List TrackState)) :
    ScrSession :=
  match acquireScreenPlusAudio screen mic with
  | Except.ok (ts, warn) =>
      { phase := ScrPhase.recording, tracks := ts, warning := warn }
  | Except.error _ =>
      { phase := ScrPhase.errorPhase, tracks := [], warning := none }

/-- C4: in screen+audio mode, whenever screen acquisition succeeds and the
separate microphone sub-acquisition fails, the acquisition does not fail as a
whole: the session proceeds to recording using the screen-only tracks and
surfaces a non-fatal warning equal to the microphone error's message. -/
theorem c4_mic_failure_degrades :
    ∀ (scrTracks : List TrackState) (e : JsError),
      startScreenPlusAudio (Except.ok scrTracks) (Except.error e) =
        { phase := ScrPhase.recording, tracks := scrTracks,
          warning := some e.message } := by
  intro scrTracks e
  rfl

/-- Witness: C4 with a live screen track and a DeviceBusy-style microphone
failure. -/
theorem c4_mic_failure_degrades_witness :
    startScreenPlusAudio (Except.ok [TrackState.live])
        (Except.error { name := ErrName.notReadable,
                        message := "Dispositif occupé" }) =
      { phase := ScrPhase.recording, tracks := [TrackState.live],
        warning := some "Dispositif occupé" } :=
  c4_mic_failure_degrades [TrackState.live]
    { name := ErrName.notReadable, message := "Dispositif occupé" }

end ScreenRecorder
